import Mathlib

/-!
Verification of the clipboard environment-detection and provider-selection
engine of the `copypasta-ext` crate, as a shallow embedding in Lean.

Embedded source files: `src/display.rs`, `src/x11_bin.rs`, `src/wayland_bin.rs`,
`src/x11_fork.rs`, `src/osc52.rs`, `src/combined.rs`, `src/lib.rs`.

External collaborators (the OS, the native clipboard bindings, process
spawning, `which` lookup, UTF-8 decoding) are modelled as explicit parameters
so that every code path of the embedded functions stays faithful to the Rust
control flow.
-/

namespace CopypastaExt

/-! ## Process environment model (`src/display.rs`)

The detector reads `XDG_SESSION_TYPE` (via `option_env!`), `WAYLAND_DISPLAY`
and `DISPLAY` (via `env::var_os`).  Both are modelled as one mapping from
variable names to optional values. -/

/-- A process environment: variable name to optional value. -/
def Env : Type := String → Option String

/-- Compile target platform, deciding the `cfg` attributes in `display.rs`.
`unix` stands for a POSIX platform that is neither macOS nor Windows. -/
inductive Platform
  | macos
  | windows
  | unix
deriving DecidableEq

/-- The guard `cfg!(all(unix, not(all(target_os = "macos", target_os = "ios"))))`
used by `is_x11` / `is_wayland`.  `all(macos, ios)` is never satisfied, so the
guard reduces to `cfg!(unix)`, which also holds on macOS. -/
def posixCfg : Platform → Bool
  | .macos => true
  | .windows => false
  | .unix => true

/-- `has_non_empty_env` in `display.rs`: variable is set and not empty. -/
def has_non_empty_env (env : Env) (name : String) : Bool :=
  ((env name).map (fun v => !v.isEmpty)).getD false

/-- `is_x11` in `display.rs`. -/
def is_x11 (p : Platform) (env : Env) : Bool :=
  if !posixCfg p then false
  else
    match env "XDG_SESSION_TYPE" with
    | some "x11" => true
    | some "wayland" => false
    | _ => has_non_empty_env env "DISPLAY"

/-- `is_wayland` in `display.rs`. -/
def is_wayland (p : Platform) (env : Env) : Bool :=
  if !posixCfg p then false
  else
    match env "XDG_SESSION_TYPE" with
    | some "wayland" => true
    | some "x11" => false
    | _ => has_non_empty_env env "WAYLAND_DISPLAY"

/-- `is_tty` in `display.rs`: `XDG_SESSION_TYPE` is exactly `"tty"`. -/
def is_tty (env : Env) : Bool :=
  env "XDG_SESSION_TYPE" == some "tty"

/-- `DisplayServer` enum in `display.rs`. -/
inductive DisplayServer
  | X11
  | Wayland
  | MacOs
  | Windows
  | Tty
deriving DecidableEq

/-- `DisplayServer::select` in `display.rs`: compile-time short circuits for
macOS/Windows, then the runtime Unix checks in order, defaulting to `X11`. -/
def DisplayServer.select (p : Platform) (env : Env) : DisplayServer :=
  match p with
  | .macos => .MacOs
  | .windows => .Windows
  | .unix =>
    if is_wayland .unix env then .Wayland
    else if is_x11 .unix env then .X11
    else if is_tty env then .Tty
    else .X11

/-! ## Claim C1 -/

/-- **C1.** In every process environment where `XDG_SESSION_TYPE` is exactly
`"x11"` while `WAYLAND_DISPLAY` is simultaneously set and non-empty,
`DisplayServer::select` returns `X11` and never `Wayland`: the explicit
session-type claim wins over presence-based inference. -/
theorem select_x11_session_beats_wayland_display (env : Env)
    (hs : env "XDG_SESSION_TYPE" = some "x11")
    (hw : has_non_empty_env env "WAYLAND_DISPLAY" = true) :
    DisplayServer.select .unix env = .X11 ∧
      DisplayServer.select .unix env ≠ .Wayland := by
  have hway : is_wayland .unix env = false := by
    simp [is_wayland, posixCfg, hs]
  have hx : is_x11 .unix env = true := by
    simp [is_x11, posixCfg, hs]
  refine ⟨?_, ?_⟩ <;> simp [DisplayServer.select, hway, hx]

/-- Concrete environment: session type `"x11"`, Wayland socket set. -/
def envX11WithWaylandSocket : Env := fun n =>
  if n = "XDG_SESSION_TYPE" then some "x11"
  else if n = "WAYLAND_DISPLAY" then some "wayland-0"
  else none

/-- Witness for C1 at a concrete environment. -/
theorem select_x11_session_beats_wayland_display_witness :
    DisplayServer.select .unix envX11WithWaylandSocket = .X11 ∧
      DisplayServer.select .unix envX11WithWaylandSocket ≠ .Wayland :=
  select_x11_session_beats_wayland_display envX11WithWaylandSocket
    (by decide) (by decide)

/-! ## Claim C2

The claim says a `"tty"` session type wins over presence inference.  In the
code, `is_wayland` and `is_x11` treat `Some("tty")` under their `_` match arm
and fall back to the presence checks, and `select` consults them *before*
`is_tty`; so a non-empty `WAYLAND_DISPLAY` (or `DISPLAY`) overrides the
explicit `"tty"` claim. -/

/-- Concrete environment: session type `"tty"`, Wayland socket set. -/
def envTtyWithWaylandSocket : Env := fun n =>
  if n = "XDG_SESSION_TYPE" then some "tty"
  else if n = "WAYLAND_DISPLAY" then some "wayland-0"
  else none

/-- **C2 counterexample.** With `XDG_SESSION_TYPE = "tty"` and a non-empty
`WAYLAND_DISPLAY`, `DisplayServer::select` returns `Wayland`, not `Tty`:
the explicit `"tty"` claim does *not* win over presence inference. -/
theorem select_tty_session_overridden_by_wayland_display :
    DisplayServer.select .unix envTtyWithWaylandSocket = .Wayland ∧
      DisplayServer.select .unix envTtyWithWaylandSocket ≠ .Tty := by
  decide

/-- **C2 amended.** `DisplayServer::select` returns `Tty` when
`XDG_SESSION_TYPE` is exactly `"tty"` *and* neither `WAYLAND_DISPLAY` nor
`DISPLAY` is set non-empty; the `"tty"` session claim only takes effect after
the Wayland/X11 presence checks have failed. -/
theorem select_tty_session_requires_no_display (env : Env)
    (hs : env "XDG_SESSION_TYPE" = some "tty")
    (hw : has_non_empty_env env "WAYLAND_DISPLAY" = false)
    (hd : has_non_empty_env env "DISPLAY" = false) :
    DisplayServer.select .unix env = .Tty := by
  have hway : is_wayland .unix env = false := by
    simp [is_wayland, posixCfg, hs, hw]
  have hx : is_x11 .unix env = false := by
    simp [is_x11, posixCfg, hs, hd]
  have ht : is_tty env = true := by
    simp [is_tty, hs]
  simp [DisplayServer.select, hway, hx, ht]

/-- Concrete environment: session type `"tty"`, no display variables. -/
def envTtyBare : Env := fun n =>
  if n = "XDG_SESSION_TYPE" then some "tty" else none

/-- Witness for the amended C2 at a concrete environment. -/
theorem select_tty_session_requires_no_display_witness :
    DisplayServer.select .unix envTtyBare = .Tty :=
  select_tty_session_requires_no_display envTtyBare
    (by decide) (by decide) (by decide)

/-! ## Provider selection (`DisplayServer::try_context` in `src/display.rs`)

Each backend constructor is embedded as an `Option Provider`:
`none` models `Err(..)` from the Rust constructor, `some` models `Ok(..)`.
`Features` records which backend modules are compiled in (the `#[cfg(feature
= ...)]` gates); `Externals` records the outcomes of the two constructors
that can actually fail (both depend on resources outside this crate). -/

/-- Compiled-in backend feature flags (`x11-fork`, `x11-bin`, `wayland-bin`,
`osc52` cargo features gating the blocks of `try_context`). -/
structure Features where
  x11Fork : Bool
  x11Bin : Bool
  waylandBin : Bool
  osc52 : Bool
deriving DecidableEq

/-- Outcomes of the fallible external constructors:
`x11ConnOk` is `copypasta::x11_clipboard::X11ClipboardContext::new()` (used by
`x11_fork::ClipboardContext::new`), `nativeOk` is
`copypasta::ClipboardContext::new()` (macOS/Windows native path). -/
structure Externals where
  x11ConnOk : Bool
  nativeOk : Bool
deriving DecidableEq

/-- The concrete provider kinds `try_context` can box. -/
inductive Provider
  | fork
  | x11Bin
  | waylandBin
  | native
  | osc52
deriving DecidableEq, Fintype

/-- `x11_fork::ClipboardContext::new()`:
`Ok(Self(X11ClipboardContext::new()?))` — fails iff the native X11 clipboard
connection fails. -/
def x11ForkNew (ext : Externals) : Option Provider :=
  if ext.x11ConnOk then some .fork else none

/-- `x11_bin::ClipboardContext::new()`:
`Ok(Self(ClipboardType::select()))` — infallible. -/
def x11BinNew : Option Provider := some .x11Bin

/-- `wayland_bin::ClipboardContext::new()`:
`Ok(Self(ClipboardType::select()))` — infallible. -/
def waylandBinNew : Option Provider := some .waylandBin

/-- `osc52::ClipboardContext::new()`: `Ok(Self)` — infallible. -/
def osc52New : Option Provider := some .osc52

/-- `copypasta::ClipboardContext::new().ok()` on macOS/Windows. -/
def nativeNew (ext : Externals) : Option Provider :=
  if ext.nativeOk then some .native else none

/-- `DisplayServer::try_context` in `display.rs`: per display server, attempt
the compiled-in candidate constructors in source order and return the first
success; `None` when all fail or none is compiled in. -/
def DisplayServer.tryContext (ds : DisplayServer) (f : Features)
    (ext : Externals) : Option Provider :=
  match ds with
  | .X11 =>
    match (if f.x11Fork then x11ForkNew ext else none) with
    | some p => some p
    | none =>
      match (if f.x11Bin then x11BinNew else none) with
      | some p => some p
      | none => none
  | .Wayland =>
    match (if f.waylandBin then waylandBinNew else none) with
    | some p => some p
    | none => none
  | .MacOs => nativeNew ext
  | .Windows => nativeNew ext
  | .Tty =>
    match (if f.osc52 then osc52New else none) with
    | some p => some p
    | none => none

/-! ## Claim C3 -/

/-- **C3.** For the X11 environment with both X11 backends compiled in,
`try_context` attempts the fork-based constructor strictly before the
binary-invocation one and returns the first that succeeds: the fork provider
whenever the native X11 connection is available (in particular whenever both
are constructible), the binary provider otherwise. -/
theorem tryContext_x11_fork_before_bin (f : Features) (ext : Externals)
    (hf : f.x11Fork = true) (hb : f.x11Bin = true) :
    DisplayServer.tryContext .X11 f ext =
      (if ext.x11ConnOk then some .fork else some .x11Bin) := by
  cases hc : ext.x11ConnOk <;>
    simp [DisplayServer.tryContext, x11ForkNew, x11BinNew, hf, hb, hc]

/-- Witness for C3: all features on, native X11 connection available, the
fork provider is selected. -/
theorem tryContext_x11_fork_before_bin_witness :
    DisplayServer.tryContext .X11 ⟨true, true, true, true⟩ ⟨true, true⟩ =
      some .fork :=
  tryContext_x11_fork_before_bin ⟨true, true, true, true⟩ ⟨true, true⟩ rfl rfl

/-! ## Claim C4 -/

/-- Candidate backends `try_context` may attempt for each display server. -/
def candidates : DisplayServer → List Provider
  | .X11 => [.fork, .x11Bin]
  | .Wayland => [.waylandBin]
  | .MacOs => [.native]
  | .Windows => [.native]
  | .Tty => [.osc52]

/-- A candidate constructs successfully: its module is compiled in and its
constructor returns `Ok`. -/
def constructs (f : Features) (ext : Externals) : Provider → Bool
  | .fork => f.x11Fork && (x11ForkNew ext).isSome
  | .x11Bin => f.x11Bin && x11BinNew.isSome
  | .waylandBin => f.waylandBin && waylandBinNew.isSome
  | .native => (nativeNew ext).isSome
  | .osc52 => f.osc52 && osc52New.isSome

/-- **C4.** For every detected environment, `try_context` returns `none`
exactly when every candidate backend for that environment fails to construct
(or is not compiled in); and any provider it does return is a candidate of
that same environment — never a fallback from a different environment. -/
theorem tryContext_none_iff_all_fail_no_cross_env (ds : DisplayServer)
    (f : Features) (ext : Externals) :
    (DisplayServer.tryContext ds f ext = none ↔
      ∀ p ∈ candidates ds, constructs f ext p = false) ∧
    (∀ p, DisplayServer.tryContext ds f ext = some p → p ∈ candidates ds) := by
  rcases f with ⟨ff, fb, fw, fo⟩
  rcases ext with ⟨xc, no⟩
  cases ds <;> cases ff <;> cases fb <;> cases fw <;> cases fo <;>
    cases xc <;> cases no <;> decide

/-- Witness for C4: a Wayland detection with the Wayland backend compiled out
yields no provider, and in particular never the X11 binary provider. -/
theorem tryContext_none_iff_all_fail_no_cross_env_witness :
    DisplayServer.tryContext .Wayland ⟨true, true, false, true⟩ ⟨true, true⟩ =
      none ∧
    Provider.x11Bin ∉ candidates .Wayland :=
  ⟨(tryContext_none_iff_all_fail_no_cross_env .Wayland
      ⟨true, true, false, true⟩ ⟨true, true⟩).1.mpr (by decide),
   by decide⟩

/-! ## Binary-invocation backend, X11 (`src/x11_bin.rs`)

`ClipboardType::select` reads the compile-time overrides `XCLIP_PATH` /
`XSEL_PATH` (modelled as the two `Option String` arguments) and probes
`PATH` through `which` (modelled as the two `Bool` arguments). -/

/-- `ClipboardType` enum in `x11_bin.rs`. -/
inductive X11ClipboardType
  | Xclip (path : Option String)
  | Xsel (path : Option String)
deriving DecidableEq

/-- `ClipboardType::select` in `x11_bin.rs`.  Note: an override is used as
soon as it is *present*, with no blank check. -/
def X11ClipboardType.select (xclipPath xselPath : Option String)
    (whichXclip whichXsel : Bool) : X11ClipboardType :=
  match xclipPath with
  | some path => .Xclip (some path)
  | none =>
    match xselPath with
    | some path => .Xsel (some path)
    | none =>
      if whichXclip then .Xclip none
      else if whichXsel then .Xsel none
      else .Xclip none

/-- A spawned command: program plus argument list. -/
structure Cmd where
  exe : String
  args : List String
deriving DecidableEq

/-- The command `ClipboardType::get` spawns
(`path.as_deref().unwrap_or(..)` with the fixed read arguments). -/
def X11ClipboardType.getCmd : X11ClipboardType → Cmd
  | .Xclip path => ⟨path.getD "xclip", ["-sel", "clip", "-out"]⟩
  | .Xsel path => ⟨path.getD "xsel", ["--clipboard", "--output"]⟩

/-- The command `ClipboardType::set` spawns. -/
def X11ClipboardType.setCmd : X11ClipboardType → Cmd
  | .Xclip path => ⟨path.getD "xclip", ["-sel", "clip"]⟩
  | .Xsel path => ⟨path.getD "xsel", ["--clipboard"]⟩

/-- The `&'static str` binary name passed to `sys_cmd_get`/`sys_cmd_set`. -/
def X11ClipboardType.binName : X11ClipboardType → String
  | .Xclip _ => "xclip"
  | .Xsel _ => "xsel"

/-- `std::io::ErrorKind` as far as the error mapping distinguishes it:
`NotFound` versus everything else. -/
inductive IoErrorKind
  | notFound
  | otherKind
deriving DecidableEq

/-- `std::process::Output` of `command.output()`: exit-status success flag,
optional status code, raw stdout bytes. -/
structure CmdOutput where
  success : Bool
  code : Option Int
  stdout : List Nat
deriving DecidableEq

/-- Exit status returned by `process.wait()`. -/
structure ProcStatus where
  success : Bool
  code : Option Int
deriving DecidableEq

/-- What happens after `sys_cmd_set` successfully spawns the helper:
the result of `write_all` on its stdin, then the result of `wait`. -/
structure SetProcRun where
  writeErr : Option IoErrorKind
  waitResult : Except IoErrorKind ProcStatus

/-- `Error` enum in `x11_bin.rs` (the `wayland_bin.rs` enum is identical up
to binary names).  The payloads of `BinaryIo`/`NoUtf8` are reduced to the
parts the code inspects. -/
inductive XBinError
  | NoBinary
  | BinaryIo (bin : String) (kind : IoErrorKind)
  | BinaryStatus (bin : String) (code : Int)
  | NoUtf8
deriving DecidableEq

/-- `sys_cmd_get` in `x11_bin.rs`/`wayland_bin.rs`.  `spawn` is the outcome
of `command.output()`; `fromUtf8` models `String::from_utf8` (external to
this crate), `none` meaning invalid UTF-8. -/
def sys_cmd_get (bin : String) (spawn : Except IoErrorKind CmdOutput)
    (fromUtf8 : List Nat → Option String) : Except XBinError String :=
  match spawn with
  | .error .notFound => .error .NoBinary
  | .error .otherKind => .error (.BinaryIo bin .otherKind)
  | .ok out =>
    if !out.success then .error (.BinaryStatus bin (out.code.getD 0))
    else
      match fromUtf8 out.stdout with
      | some s => .ok s
      | none => .error .NoUtf8

/-- `sys_cmd_set` in `x11_bin.rs`/`wayland_bin.rs`.  `spawn` is the outcome
of `command.stdin(piped).stdout(null).spawn()` together with the subsequent
write/wait behaviour of the spawned process. -/
def sys_cmd_set (bin : String) (spawn : Except IoErrorKind SetProcRun) :
    Except XBinError Unit :=
  match spawn with
  | .error .notFound => .error .NoBinary
  | .error .otherKind => .error (.BinaryIo bin .otherKind)
  | .ok run =>
    match run.writeErr with
    | some k => .error (.BinaryIo bin k)
    | none =>
      match run.waitResult with
      | .error k => .error (.BinaryIo bin k)
      | .ok status =>
        if !status.success then .error (.BinaryStatus bin (status.code.getD 0))
        else .ok ()

/-- The external world as seen by one get/set call: what spawning a given
command yields. -/
structure World where
  spawnOut : Cmd → Except IoErrorKind CmdOutput
  spawnIn : Cmd → List Nat → Except IoErrorKind SetProcRun
  fromUtf8 : List Nat → Option String

/-- `ClipboardType::get` in `x11_bin.rs`. -/
def X11ClipboardType.get (ct : X11ClipboardType) (w : World) :
    Except XBinError String :=
  sys_cmd_get ct.binName (w.spawnOut ct.getCmd) w.fromUtf8

/-- `ClipboardType::set` in `x11_bin.rs` (`contents` are the bytes written
to the helper's stdin). -/
def X11ClipboardType.set (ct : X11ClipboardType) (w : World)
    (contents : List Nat) : Except XBinError Unit :=
  sys_cmd_set ct.binName (w.spawnIn ct.setCmd contents)

/-- `X11BinClipboardContext::new()` in `x11_bin.rs`:
`Ok(Self(ClipboardType::select()))` — construction never fails. -/
def X11BinClipboardContext.new (xclipPath xselPath : Option String)
    (whichXclip whichXsel : Bool) : Except XBinError X11ClipboardType :=
  .ok (X11ClipboardType.select xclipPath xselPath whichXclip whichXsel)

/-! ## Claim C5 -/

/-- **C5.** With no override path supplied and neither helper found on
`PATH`, construction still succeeds with the default guess `Xclip(None)`
(the primary tool); the failure surfaces only on invocation: when spawning
the helper fails with `NotFound`, both `get` and `set` return the
`NoBinary` (resource-unavailable) error. -/
theorem x11_bin_construction_lazy_failure (w : World) (contents : List Nat)
    (hg : w.spawnOut (X11ClipboardType.Xclip none).getCmd =
      .error .notFound)
    (hs : w.spawnIn (X11ClipboardType.Xclip none).setCmd contents =
      .error .notFound) :
    X11BinClipboardContext.new none none false false =
      .ok (.Xclip none) ∧
    (X11ClipboardType.Xclip none).get w = .error .NoBinary ∧
    (X11ClipboardType.Xclip none).set w contents = .error .NoBinary := by
  refine ⟨rfl, ?_, ?_⟩
  · simp [X11ClipboardType.get, sys_cmd_get, hg]
  · simp [X11ClipboardType.set, sys_cmd_set, hs]

/-- A world in which every spawn fails with `NotFound` (no helper binary
anywhere on the system). -/
def worldNoBinaries : World where
  spawnOut := fun _ => .error .notFound
  spawnIn := fun _ _ => .error .notFound
  fromUtf8 := fun _ => none

/-- Witness for C5 in a binary-less world, on a one-byte contents. -/
theorem x11_bin_construction_lazy_failure_witness :
    X11BinClipboardContext.new none none false false =
      .ok (.Xclip none) ∧
    (X11ClipboardType.Xclip none).get worldNoBinaries = .error .NoBinary ∧
    (X11ClipboardType.Xclip none).set worldNoBinaries [65] =
      .error .NoBinary :=
  x11_bin_construction_lazy_failure worldNoBinaries [65] rfl rfl

/-! ## Binary-invocation backend, Wayland (`src/wayland_bin.rs`) -/

/-- `ClipboardType` enum in `wayland_bin.rs`: `wl-copy` path (for set),
`wl-paste` path (for get). -/
inductive WaylandClipboardType
  | WlClipboard (copyPath : Option String) (pastePath : Option String)
deriving DecidableEq

/-- `ClipboardType::select` in `wayland_bin.rs`.  Unlike the X11 version,
present overrides are filtered through `!p.trim().is_empty()`. -/
def WaylandClipboardType.select (wlCopyPath wlPastePath : Option String)
    (whichWlCopy whichWlPaste : Bool) : WaylandClipboardType :=
  if wlCopyPath.isSome || wlPastePath.isSome then
    .WlClipboard (wlCopyPath.filter (fun p => !p.trim.isEmpty))
      (wlPastePath.filter (fun p => !p.trim.isEmpty))
  else if whichWlCopy || whichWlPaste then .WlClipboard none none
  else .WlClipboard none none

/-- Executable spawned by `ClipboardType::get` in `wayland_bin.rs`
(`path.as_deref().unwrap_or_else(|| "wl-paste")`). -/
def WaylandClipboardType.getExe : WaylandClipboardType → String
  | .WlClipboard _ pastePath => pastePath.getD "wl-paste"

/-- Executable spawned by `ClipboardType::set` in `wayland_bin.rs`. -/
def WaylandClipboardType.setExe : WaylandClipboardType → String
  | .WlClipboard copyPath _ => copyPath.getD "wl-copy"

/-- Executable spawned by `ClipboardType::get` in `x11_bin.rs`. -/
def X11ClipboardType.getExe (ct : X11ClipboardType) : String := ct.getCmd.exe

/-- Executable spawned by `ClipboardType::set` in `x11_bin.rs`. -/
def X11ClipboardType.setExe (ct : X11ClipboardType) : String := ct.setCmd.exe

/-! ## Claim C6

The claim says a present-but-blank override never forces an executable path,
for all four override strings.  That is true of the Wayland pair
(`WL_COPY_PATH`/`WL_PASTE_PATH`, filtered with `!p.trim().is_empty()`) but
false of the X11 pair (`XCLIP_PATH`/`XSEL_PATH`, used whenever present). -/

/-- **C6 counterexample.** A present-but-blank `XCLIP_PATH` override (the
empty string) *is* kept by `x11_bin`'s `ClipboardType::select` and forces
the empty string as the executable path for both get and set, even with
`xclip` available on `PATH` — the blank X11 override does force the path. -/
theorem blank_xclip_override_forces_path :
    X11ClipboardType.select (some "") none true true =
      .Xclip (some "") ∧
    (X11ClipboardType.select (some "") none true true).getExe = "" ∧
    (X11ClipboardType.select (some "") none true true).setExe = "" ∧
    (X11ClipboardType.select (some "") none true true).getExe ≠ "xclip" := by
  refine ⟨rfl, rfl, rfl, ?_⟩
  decide

/-- **C6 amended.** A present-and-non-blank override always forces the
executable path, for all four override strings.  A present-but-blank
(empty or whitespace-only) override does not force a path for the Wayland
pair (`WL_COPY_PATH`/`WL_PASTE_PATH`), which falls back to the default
helper names; but for the X11 pair (`XCLIP_PATH`/`XSEL_PATH`) any present
override — blank or not — is used as the executable path. -/
theorem override_forcing_amended (p : String) (q : Option String)
    (wa wb : Bool) :
    (p.trim.isEmpty = false →
      (WaylandClipboardType.select (some p) q wa wb).setExe = p ∧
      (WaylandClipboardType.select q (some p) wa wb).getExe = p) ∧
    (p.trim.isEmpty = true →
      (WaylandClipboardType.select (some p) q wa wb).setExe = "wl-copy" ∧
      (WaylandClipboardType.select q (some p) wa wb).getExe = "wl-paste") ∧
    ((X11ClipboardType.select (some p) q wa wb).getExe = p ∧
      (X11ClipboardType.select (some p) q wa wb).setExe = p ∧
      (X11ClipboardType.select none (some p) wa wb).getExe = p ∧
      (X11ClipboardType.select none (some p) wa wb).setExe = p) := by
  refine ⟨?_, ?_, ?_⟩
  · intro hp
    constructor <;>
      simp [WaylandClipboardType.select, WaylandClipboardType.setExe,
        WaylandClipboardType.getExe, Option.filter, hp]
  · intro hp
    constructor <;>
      simp [WaylandClipboardType.select, WaylandClipboardType.setExe,
        WaylandClipboardType.getExe, Option.filter, hp]
  · exact ⟨rfl, rfl, rfl, rfl⟩

/-- Witness for the amended C6: the non-blank override `"/usr/bin/tool"`
forces the path everywhere it is supplied. -/
theorem override_forcing_amended_witness :
    ("/usr/bin/tool".trim.isEmpty = false →
      (WaylandClipboardType.select (some "/usr/bin/tool") none false
        false).setExe = "/usr/bin/tool" ∧
      (WaylandClipboardType.select none (some "/usr/bin/tool") false
        false).getExe = "/usr/bin/tool") ∧
    ("/usr/bin/tool".trim.isEmpty = true →
      (WaylandClipboardType.select (some "/usr/bin/tool") none false
        false).setExe = "wl-copy" ∧
      (WaylandClipboardType.select none (some "/usr/bin/tool") false
        false).getExe = "wl-paste") ∧
    ((X11ClipboardType.select (some "/usr/bin/tool") none false
        false).getExe = "/usr/bin/tool" ∧
      (X11ClipboardType.select (some "/usr/bin/tool") none false
        false).setExe = "/usr/bin/tool" ∧
      (X11ClipboardType.select none (some "/usr/bin/tool") false
        false).getExe = "/usr/bin/tool" ∧
      (X11ClipboardType.select none (some "/usr/bin/tool") false
        false).setExe = "/usr/bin/tool") :=
  override_forcing_amended "/usr/bin/tool" none false false

/-! ## Fork backend (`src/x11_fork.rs`)

`set_contents` matches on `unsafe { fork() }`: `-1` is a hard error, `0` is
the child branch (store, wait, `process::exit(0)`, with `expect` panics on
failure), any other pid is the parent branch returning `Ok(())`
immediately. -/

/-- `Error` enum in `x11_fork.rs`. -/
inductive ForkError
  | Fork
deriving DecidableEq

/-- Outcome of the `fork()` syscall as seen by the calling (parent) process:
either it failed (returned `-1`) or it succeeded (returned the child pid). -/
inductive ForkCall
  | failed
  | ok
deriving DecidableEq

/-- How the detached child process ends: a panic from one of the two
`expect`s, or the normal `process::exit(0)`. -/
inductive ChildEnd
  | panicked
  | exited
deriving DecidableEq

/-- The child branch of `set_contents` (the `0 =>` arm): store the contents
through a fresh native connection (`expect` on failure), wait for the
clipboard to change (`expect` on failure), then exit. -/
def forkChildRun (storeOk waitOk : Bool) : ChildEnd :=
  if !storeOk then .panicked
  else if !waitOk then .panicked
  else .exited

/-- `X11ForkClipboardContext::set_contents` in `x11_fork.rs`: the value the
caller (parent) receives, paired with the behaviour of the child process
(`none` when no child was created because `fork` failed). -/
def X11ForkClipboardContext.set_contents (contents : String) (fc : ForkCall)
    (storeOk waitOk : Bool) : Except ForkError Unit × Option ChildEnd :=
  match fc with
  | .failed => (.error .Fork, none)
  | .ok => (.ok (), some (forkChildRun storeOk waitOk))

/-! ## Claim C7 -/

/-- **C7.** `set_contents` returns an error to the caller iff the `fork`
call itself fails, and that error is the `Fork` (fork-failure) error; when
the fork succeeds the parent returns `Ok(())` regardless of whether the
child's native store and wait operations succeed, so for every contents
string the parent's result is independent of the child's fate. -/
theorem fork_set_contents_parent_result (contents : String) (fc : ForkCall)
    (storeOk waitOk storeOk' waitOk' : Bool) :
    ((X11ForkClipboardContext.set_contents contents fc storeOk waitOk).1 =
        .error .Fork ↔ fc = .failed) ∧
    (X11ForkClipboardContext.set_contents contents fc storeOk waitOk).1 =
      (X11ForkClipboardContext.set_contents contents fc storeOk' waitOk').1 ∧
    (fc = .ok →
      (X11ForkClipboardContext.set_contents contents fc storeOk waitOk).1 =
        .ok ()) := by
  cases fc <;> simp [X11ForkClipboardContext.set_contents]

/-- Witness for C7: a successful fork whose child panics in both operations
still yields `Ok(())` in the parent. -/
theorem fork_set_contents_parent_result_witness :
    ((X11ForkClipboardContext.set_contents "abc" .ok false false).1 =
        .error .Fork ↔ ForkCall.ok = .failed) ∧
    (X11ForkClipboardContext.set_contents "abc" .ok false false).1 =
      (X11ForkClipboardContext.set_contents "abc" .ok true true).1 ∧
    (ForkCall.ok = .ok →
      (X11ForkClipboardContext.set_contents "abc" .ok false false).1 =
        .ok ()) :=
  fork_set_contents_parent_result "abc" .ok false false true true

/-! ## OSC-52 backend (`src/osc52.rs`)

`set_contents` executes
`print!("\x1B]52;c;{}\x07", base64::encode(&contents))` and returns
`Ok(())`.  `base64::encode` is the standard base64 alphabet with `=`
padding, embedded below over the UTF-8 bytes of the contents. -/

/-- The standard base64 alphabet used by `base64::encode`. -/
def b64Alphabet : List Char :=
  "ABCDEFGHIJKLMNOPQRSTUVWXYZabcdefghijklmnopqrstuvwxyz0123456789+/".toList

/-- Character for a 6-bit group. -/
def b64Char (n : Nat) : Char := b64Alphabet.getD n 'A'

/-- Standard base64 encoding with padding over input bytes, three bytes to
four output characters. -/
def base64Encode : List Nat → List Char
  | [] => []
  | [a] => [b64Char (a / 4), b64Char (a % 4 * 16), '=', '=']
  | [a, b] =>
    [b64Char (a / 4), b64Char (a % 4 * 16 + b / 16), b64Char (b % 16 * 4),
      '=']
  | a :: b :: c :: rest =>
    b64Char (a / 4) :: b64Char (a % 4 * 16 + b / 16) ::
      b64Char (b % 16 * 4 + c / 64) :: b64Char (c % 64) ::
      base64Encode rest

/-- The bell character `\x07`, the OSC-52 terminator. -/
def BEL : Char := Char.ofNat 7

/-- The fixed escape prefix `\x1B]52;c;`. -/
def oscHead : List Char := Char.ofNat 27 :: "]52;c;".toList

/-- `Error` enum in `osc52.rs`. -/
inductive Osc52Error
  | Unsupported
deriving DecidableEq

/-- `Osc52ClipboardContext` struct in `osc52.rs` (no fields). -/
structure Osc52ClipboardContext where
deriving DecidableEq

/-- `Osc52ClipboardContext::new()` in `osc52.rs`: `Ok(Self)`. -/
def Osc52ClipboardContext.new : Except Osc52Error Osc52ClipboardContext :=
  .ok ⟨⟩

/-- `Osc52ClipboardContext::get_contents` in `osc52.rs`:
`Err(Error::Unsupported.into())`. -/
def Osc52ClipboardContext.get_contents (_ctx : Osc52ClipboardContext) :
    Except Osc52Error String :=
  .error .Unsupported

/-- `Osc52ClipboardContext::set_contents` in `osc52.rs`: the characters
written to standard output, paired with the returned value.  `contents` are
the UTF-8 bytes of the contents string. -/
def Osc52ClipboardContext.set_contents (_ctx : Osc52ClipboardContext)
    (contents : List Nat) : List Char × Except Osc52Error Unit :=
  (oscHead ++ base64Encode contents ++ [BEL], .ok ())

/-- `List.getD` stays inside the list or yields the default, so a property of
all elements and of the default holds of the lookup. -/
theorem getD_ne_of_forall {l : List Char} {c d : Char}
    (hl : ∀ x ∈ l, x ≠ c) (hd : d ≠ c) : ∀ n, l.getD n d ≠ c := by
  induction l with
  | nil => intro n; simpa using hd
  | cons x xs ih =>
    intro n
    cases n with
    | zero => simpa using hl x (by simp)
    | succ m =>
      simpa using ih (fun y hy => hl y (by simp [hy])) m

/-- No 6-bit group maps to the bell character. -/
theorem b64Char_ne_bel (n : Nat) : b64Char n ≠ BEL :=
  getD_ne_of_forall (by decide) (by decide) n

/-- The base64 payload never contains the bell terminator, whatever the
input bytes (bell bytes included). -/
theorem bel_not_mem_base64 : ∀ contents : List Nat,
    BEL ∉ base64Encode contents
  | [] => by simp [base64Encode]
  | [a] => by
    intro hmem
    simp only [base64Encode, List.mem_cons, List.not_mem_nil, or_false]
      at hmem
    rcases hmem with h | h | h | h <;>
      first
        | exact b64Char_ne_bel _ h.symm
        | exact absurd h.symm (by decide)
  | [a, b] => by
    intro hmem
    simp only [base64Encode, List.mem_cons, List.not_mem_nil, or_false]
      at hmem
    rcases hmem with h | h | h | h <;>
      first
        | exact b64Char_ne_bel _ h.symm
        | exact absurd h.symm (by decide)
  | a :: b :: c :: rest => by
    intro hmem
    simp only [base64Encode, List.mem_cons] at hmem
    rcases hmem with h | h | h | h | h
    · exact b64Char_ne_bel _ h.symm
    · exact b64Char_ne_bel _ h.symm
    · exact b64Char_ne_bel _ h.symm
    · exact b64Char_ne_bel _ h.symm
    · exact bel_not_mem_base64 rest h

/-! ## Claim C8 -/

/-- **C8.** For every contents byte string (empty, or containing the bell
byte, included), `set_contents` writes exactly the fixed escape prefix
`\x1B]52;c;`, then the base64 encoding of the contents, then the single bell
terminator, and returns success; the payload and the prefix are bell-free,
so the whole output contains exactly one bell and a bell byte inside the
contents cannot corrupt the framing. -/
theorem osc52_set_contents_framing (ctx : Osc52ClipboardContext)
    (contents : List Nat) :
    (ctx.set_contents contents).1 =
      oscHead ++ base64Encode contents ++ [BEL] ∧
    (ctx.set_contents contents).2 = .ok () ∧
    BEL ∉ oscHead ∧
    BEL ∉ base64Encode contents ∧
    ((ctx.set_contents contents).1.count BEL = 1) := by
  have hpre : BEL ∉ oscHead := by decide
  have hpay := bel_not_mem_base64 contents
  refine ⟨rfl, rfl, hpre, hpay, ?_⟩
  simp [Osc52ClipboardContext.set_contents, List.count_append,
    List.count_eq_zero.mpr hpre, List.count_eq_zero.mpr hpay]

/-- Witness for C8 on a contents string that itself contains the bell byte
(`[7]`): the framing still holds and exactly one bell is emitted. -/
theorem osc52_set_contents_framing_witness :
    (Osc52ClipboardContext.set_contents ⟨⟩ [7]).1 =
      oscHead ++ base64Encode [7] ++ [BEL] ∧
    (Osc52ClipboardContext.set_contents ⟨⟩ [7]).2 = .ok () ∧
    BEL ∉ oscHead ∧
    BEL ∉ base64Encode [7] ∧
    ((Osc52ClipboardContext.set_contents ⟨⟩ [7]).1.count BEL = 1) :=
  osc52_set_contents_framing ⟨⟩ [7]

/-! ## Claim C9 -/

/-- **C9.** `Osc52ClipboardContext::get_contents` returns the `Unsupported`
error for every provider state, and never succeeds: the backend is
write-only by construction. -/
theorem osc52_get_contents_always_unsupported (ctx : Osc52ClipboardContext) :
    ctx.get_contents = .error .Unsupported ∧
      ∀ s, ctx.get_contents ≠ .ok s := by
  refine ⟨rfl, fun s h => ?_⟩
  simp [Osc52ClipboardContext.get_contents] at h

/-- Witness for C9 at the (unique) concrete provider state. -/
theorem osc52_get_contents_always_unsupported_witness :
    Osc52ClipboardContext.get_contents ⟨⟩ = .error .Unsupported ∧
      ∀ s, Osc52ClipboardContext.get_contents ⟨⟩ ≠ .ok s :=
  osc52_get_contents_always_unsupported ⟨⟩

/-! ## Claim C10 -/

/-- **C10.** `Osc52ClipboardContext::new` never returns an error, so with
the OSC-52 backend compiled in, provider selection for the TTY environment
always returns the OSC-52 provider — TTY selection cannot yield `none`. -/
theorem osc52_new_infallible_tty_selection_total (f : Features)
    (ext : Externals) (h : f.osc52 = true) :
    Osc52ClipboardContext.new = .ok ⟨⟩ ∧
      DisplayServer.tryContext .Tty f ext = some .osc52 := by
  refine ⟨rfl, ?_⟩
  simp [DisplayServer.tryContext, h, osc52New]

/-- Witness for C10: OSC-52 compiled in, every external resource failing,
TTY selection still returns the OSC-52 provider. -/
theorem osc52_new_infallible_tty_selection_total_witness :
    Osc52ClipboardContext.new = .ok ⟨⟩ ∧
      DisplayServer.tryContext .Tty ⟨false, false, false, true⟩
        ⟨false, false⟩ = some .osc52 :=
  osc52_new_infallible_tty_selection_total ⟨false, false, false, true⟩
    ⟨false, false⟩ rfl

end CopypastaExt
